import Mathlib

/-!
Shallow embedding of the resilient database connectivity layer of
`src/db/service.rs` (the `SharedClient` / `VersionedClient` /
`VersionedStatement` core), together with proofs about its state machines.

Modelling conventions:
* Machine integers (`u64`, `u32`) are modelled as `Nat`; none of the
  counters involved can realistically overflow and the source never relies
  on wrap-around.
* The `tokio_postgres::Client` value is abstracted to a numeric identifier
  (`clientId`); `RefClient = Rc<(u64, Client)>` becomes a structure carrying
  the version and that identifier.
* Async interaction with the environment (outcomes of `connect`, of
  `get_client`, of `prepare`, of the dispatched query) is supplied by
  explicit oracles, one entry per loop iteration / attempt, so every
  function is a total, executable Lean function.
* `delay_for(...)` waits are recorded as explicit events in the background
  loop's trace (they matter for the spec's backoff claims) and are silent
  no-ops elsewhere.
-/

/-- `MAX_RETRIES` from `service.rs`. -/
def MAX_RETRIES : Nat := 10

/-- Model of `Rc<(u64, Client)>`: the version paired with an abstract
client identity. -/
structure RefClient where
  version : Nat
  clientId : Nat
deriving DecidableEq, Repr

/-- `ClientState` from `service.rs`. -/
inductive ClientState where
  | Disconnected (version : Nat)
  | Connecting (version : Nat)
  | Connected (cl : RefClient)
deriving DecidableEq, Repr

/-- Model of `tokio_postgres::error::Error`: an optional server-side
`SqlState` code plus the display message (`err.to_string()`).  The source
classifies errors by `err.code()` (`Some` = server-side, `None` =
client-side) and, for client-side errors, by the exact message string. -/
structure PgError where
  code : Option Nat
  message : String
deriving DecidableEq, Repr

/-- The variants of `crate::error::Error` reachable from the connectivity
core: `DisconnectedError(String)` and `PgError { source }` (the `.into()`
conversion from a `tokio_postgres` error). -/
inductive Error where
  | DisconnectedError (msg : String)
  | PgError (source : PgError)
deriving DecidableEq, Repr

/-- `SharedClient::check_version`: true iff the manager state is
`Connected` with exactly this version. The live state is passed
explicitly (the source reads it from the shared `RefCell`). -/
def check_version (st : ClientState) (version : Nat) : Bool :=
  match st with
  | ClientState.Connected cl => cl.version == version
  | _ => false

/-! ### The background loop `SharedClient::spawn_client`

One pass through the outer `loop` is driven by one `ConnCycle`: how many times
`connect` fails before succeeding (each failure is a 500ms backoff with no
state change), the identity of the client obtained on success, and how the
established connection's background future ends (`conn.await`):
`closedErr` (resolved with `Err(e)`: the loop backs off and restarts) or
`closedOk` (resolved with `Ok`: the task `return`s). The run is observed
along a finite script of cycles. -/

inductive ConnClose where
  | closedOk
  | closedErr
deriving DecidableEq, Repr

structure ConnCycle where
  fails : Nat
  client : Nat
  close : ConnClose
deriving DecidableEq, Repr

/-- Observable events of the background task: a state published into the
shared `VersionedClient`, or a 500ms backoff wait. -/
inductive MgrEvent where
  | publish (s : ClientState)
  | backoff500
deriving DecidableEq, Repr

/-- The events of one pass through the outer loop up to the point where the
connection is established: publish `Connecting(version)`, one backoff per
failed `connect` attempt, then publish `Connected((version, client))`. -/
def cycleEvents (version fails client : Nat) : List MgrEvent :=
  MgrEvent.publish (ClientState.Connecting version) ::
    (List.replicate fails MgrEvent.backoff500 ++
      [MgrEvent.publish (ClientState.Connected ⟨version, client⟩)])

/-- Event trace of `spawn_client` run from local `version = v` along the
given script of cycles.  After a cycle whose connection ends in an error
the loop waits 500ms and restarts with the next version; after a cycle
whose connection ends cleanly the task returns and nothing further is
emitted. -/
def spawnTrace : Nat → List ConnCycle → List MgrEvent
  | _, [] => []
  | v, c :: rest =>
    cycleEvents (v + 1) c.fails c.client ++
      match c.close with
      | ConnClose.closedOk => []
      | ConnClose.closedErr => MgrEvent.backoff500 :: spawnTrace (v + 1) rest

/-- Whether the background task has stopped (hit the `return` after a clean
connection closure) within the scripted cycles. -/
def spawnStopped : Nat → List ConnCycle → Bool
  | _, [] => false
  | v, c :: rest =>
    match c.close with
    | ConnClose.closedOk => true
    | ConnClose.closedErr => spawnStopped (v + 1) rest

/-- The states published by a trace, in order. -/
def publishedStates : List MgrEvent → List ClientState
  | [] => []
  | MgrEvent.publish s :: r => s :: publishedStates r
  | MgrEvent.backoff500 :: r => publishedStates r

/-- The versions of the `Connecting` states of a state list, in order. -/
def connectingVersions : List ClientState → List Nat :=
  List.filterMap fun s =>
    match s with
    | ClientState.Connecting v => some v
    | _ => none

/-- The versions of the `Connected` states of a state list, in order. -/
def connectedVersions : List ClientState → List Nat :=
  List.filterMap fun s =>
    match s with
    | ClientState.Connected cl => some cl.version
    | _ => none

/-- The state sequence `spawn_client` publishes, computed directly from the
script; notably independent of each cycle's `fails` count. -/
def statesOf : Nat → List ConnCycle → List ClientState
  | _, [] => []
  | v, c :: rest =>
    ClientState.Connecting (v + 1) ::
      ClientState.Connected ⟨v + 1, c.client⟩ ::
        match c.close with
        | ConnClose.closedOk => []
        | ConnClose.closedErr => statesOf (v + 1) rest

/-- The version sequence of the `Connecting` (equivalently `Connected`)
states published along a script: one fresh version per outer-loop pass. -/
def liveVersions : Nat → List ConnCycle → List Nat
  | _, [] => []
  | v, c :: rest =>
    (v + 1) ::
      match c.close with
      | ConnClose.closedOk => []
      | ConnClose.closedErr => liveVersions (v + 1) rest

/-! ### `SharedClient::get_client`

The caller polls the shared state; each non-`Connected` observation costs a
100ms sleep and one unit of the retry budget.  Observations are supplied by
a stream `obs : Nat → ClientState` (the state each time the `RefCell` is
read). -/

def getClientGo (obs : Nat → ClientState) : Nat → Nat → Except Error RefClient
  | _, 0 => Except.error (Error.DisconnectedError "Failed to connect to database")
  | i, fuel + 1 =>
    match obs i with
    | ClientState.Connected cl => Except.ok cl
    | _ => getClientGo obs (i + 1) fuel

/-- `SharedClient::get_client`: return the handle at the first `Connected`
observation; give up with `DisconnectedError` after `MAX_RETRIES`
non-`Connected` observations. -/
def get_client (obs : Nat → ClientState) : Except Error RefClient :=
  getClientGo obs 0 MAX_RETRIES

/-! ### Statement handles: `VersionedStatement` and `get_statement`

The abstract prepared-statement handle (`tokio_postgres::Statement`) is a
numeric identifier. -/

abbrev Stmt := Nat

/-- `ClientStatement` from `service.rs`: the client (with its version) the
statement was prepared on, plus the prepared statement. -/
structure ClientStatement where
  cl : RefClient
  statement : Stmt
deriving DecidableEq, Repr

/-- `ClientStatement::get_version`. -/
def ClientStatement.get_version (cs : ClientStatement) : Nat :=
  cs.cl.version

/-- `StatementState` from `service.rs`. -/
inductive StatementState where
  | Init (version : Nat)
  | WaitingClient (version : Nat)
  | Preparing (version : Nat)
  | Prepared (cs : ClientStatement)
deriving DecidableEq, Repr

/-- Environment of one iteration of the `get_statement` loop: the outcome
of `shared_cl.get_client().await` (used only from the `Init` branch), the
outcome of `cl.1.prepare(&self.query).await` on the client so obtained, and
the manager state read by `check_version` (used only from the `Prepared`
branch). -/
structure StmtEnv where
  client : Except Error RefClient
  prep : Except PgError Stmt
  mgr : ClientState
deriving Repr

/-- Result of one pass through the `get_statement` loop body: either the
function returns (`done`, with the value returned and the statement state
left in the `RefCell`), or it falls through to the retry check with the
state it has set. -/
inductive StmtIter where
  | done (r : Except Error ClientStatement) (s : StatementState)
  | next (s : StatementState)
deriving Repr

/-- One iteration of the `loop` in `VersionedStatement::get_statement`,
mirroring the source arm by arm.  In the `Init` arm the source first sets
`WaitingClient(version)`, awaits `get_client`, and on success shadows
`version` with the obtained client's version before setting
`Preparing(version)` and preparing; note that the two error-return arms of
the prepare `match` return with the state still `Preparing(version)`, and
that the `get_client` error arm resets the state to `Init` with the
original version. -/
def getStatementIter (e : StmtEnv) : StatementState → StmtIter
  | StatementState.Init version =>
    match e.client with
    | Except.ok cl =>
      match e.prep with
      | Except.ok statement =>
        StmtIter.next (StatementState.Prepared ⟨cl, statement⟩)
      | Except.error err =>
        match err.code with
        | none =>
          if err.message = "connection closed" then
            StmtIter.next (StatementState.Init cl.version)
          else
            StmtIter.done (Except.error (Error.PgError err))
              (StatementState.Preparing cl.version)
        | some _ =>
          StmtIter.done (Except.error (Error.PgError err))
            (StatementState.Preparing cl.version)
    | Except.error err =>
      StmtIter.done (Except.error err) (StatementState.Init version)
  | StatementState.WaitingClient version =>
    StmtIter.next (StatementState.WaitingClient version)
  | StatementState.Preparing version =>
    StmtIter.next (StatementState.Preparing version)
  | StatementState.Prepared cs =>
    if check_version e.mgr cs.cl.version then
      StmtIter.done (Except.ok cs) (StatementState.Prepared cs)
    else
      StmtIter.next (StatementState.Init cs.cl.version)

/-- The `get_statement` loop: run iterations, spending one unit of fuel per
iteration that falls through to the `retries` check; the check fires (with
`DisconnectedError`) once `MAX_RETRIES` iterations have fallen through, so
the initial fuel is `MAX_RETRIES - 1`. -/
def getStatementGo (env : Nat → StmtEnv) :
    Nat → Nat → StatementState → Except Error ClientStatement × StatementState
  | i, fuel, st =>
    match getStatementIter (env i) st with
    | StmtIter.done r s => (r, s)
    | StmtIter.next s =>
      match fuel with
      | 0 => (Except.error (Error.DisconnectedError "Failed to connect to database"), s)
      | f + 1 => getStatementGo env (i + 1) f s

/-- `VersionedStatement::get_statement`: returns the result together with
the statement state left behind in the handle's `RefCell`. -/
def get_statement (env : Nat → StmtEnv) (st : StatementState) :
    Except Error ClientStatement × StatementState :=
  getStatementGo env 0 (MAX_RETRIES - 1) st

/-- `VersionedStatement::prepare`: forces `get_statement` once and discards
the handle. -/
def VersionedStatement.prepare (env : Nat → StmtEnv) (st : StatementState) :
    Except Error Unit × StatementState :=
  match get_statement env st with
  | (Except.ok _, s) => (Except.ok (), s)
  | (Except.error e, s) => (Except.error e, s)

/-- `VersionedClient` from `service.rs`: the shared cell's content. -/
structure VersionedClient where
  state : ClientState
deriving DecidableEq, Repr

/-- `VersionedClient::new`. -/
def VersionedClient.new : VersionedClient :=
  ⟨ClientState.Disconnected 0⟩

/-- The `VersionedStatement` struct: the shared client cell's content, the
statement state cell's content, and the query text. -/
structure VersionedStatement where
  shared_cl : VersionedClient
  state : StatementState
  /-- the `query` field of the source struct (renamed: `query` is also a
  method name) -/
  queryText : String
deriving DecidableEq, Repr

/-- `VersionedStatement::new`: always `Ok`, stores the shared client as
given, the query text as given, and the statement state `Init(0)`. -/
def VersionedStatement.new (shared_cl : VersionedClient) (query : String) :
    Except Error VersionedStatement :=
  Except.ok ⟨shared_cl, StatementState.Init 0, query⟩

/-! ### The dispatch wrapper `impl_client_method!`

`query`, `query_one`, `query_opt` and `execute` are all generated from the
single macro `impl_client_method!`; the body is modelled once, generically
in the result type.  One attempt = one `get_statement()` (with its own
iteration environment) followed by one dispatch of the method on the
obtained client/statement pair (its outcome supplied by `call`). -/

structure AttemptEnv (α : Type) where
  senv : Nat → StmtEnv
  call : ClientStatement → Except PgError α

/-- Abstract row type for query results. -/
abbrev Row := Nat

/-- The retry loop of `impl_client_method!`.  `retries` starts at `0` and
the abort check `retries >= MAX_RETRIES` runs after the increment, so
`MAX_RETRIES` consecutive "connection closed" failures produce the
terminal `DisconnectedError`; the initial fuel is therefore
`MAX_RETRIES - 1`. -/
def clientMethodGo {α : Type} (env : Nat → AttemptEnv α) :
    Nat → Nat → StatementState → Except Error α × StatementState
  | k, fuel, st =>
    match get_statement (env k).senv st with
    | (Except.error e, s) => (Except.error e, s)
    | (Except.ok refStmt, s) =>
      match (env k).call refStmt with
      | Except.ok res => (Except.ok res, s)
      | Except.error err =>
        match err.code with
        | none =>
          if err.message = "connection closed" then
            match fuel with
            | 0 =>
              (Except.error (Error.DisconnectedError "Failed to connect to database"), s)
            | f + 1 => clientMethodGo env (k + 1) f s
          else
            (Except.error (Error.PgError err), s)
        | some _ =>
          (Except.error (Error.PgError err), s)

/-- Body shared by the four generated methods. -/
def clientMethod {α : Type} (env : Nat → AttemptEnv α) (st : StatementState) :
    Except Error α × StatementState :=
  clientMethodGo env 0 (MAX_RETRIES - 1) st

/-- `VersionedStatement::query` (returns `Vec<Row>`). -/
def VersionedStatement.query (env : Nat → AttemptEnv (List Row))
    (st : StatementState) : Except Error (List Row) × StatementState :=
  clientMethod env st

/-- `VersionedStatement::query_one` (returns `Row`). -/
def VersionedStatement.query_one (env : Nat → AttemptEnv Row)
    (st : StatementState) : Except Error Row × StatementState :=
  clientMethod env st

/-- `VersionedStatement::query_opt` (returns `Option<Row>`). -/
def VersionedStatement.query_opt (env : Nat → AttemptEnv (Option Row))
    (st : StatementState) : Except Error (Option Row) × StatementState :=
  clientMethod env st

/-- `VersionedStatement::execute` (returns the affected-row count). -/
def VersionedStatement.execute (env : Nat → AttemptEnv Nat)
    (st : StatementState) : Except Error Nat × StatementState :=
  clientMethod env st

/-! ## Theorems -/

/-! ### Helper lemmas about the background loop trace -/

theorem publishedStates_append (a b : List MgrEvent) :
    publishedStates (a ++ b) = publishedStates a ++ publishedStates b := by
  induction a with
  | nil => rfl
  | cons e r ih => cases e <;> simp [publishedStates, ih]

theorem publishedStates_replicate (n : Nat) :
    publishedStates (List.replicate n MgrEvent.backoff500) = [] := by
  induction n with
  | zero => rfl
  | succ m ih => simp [List.replicate, publishedStates, ih]

theorem publishedStates_cycleEvents (v f c : Nat) :
    publishedStates (cycleEvents v f c) =
      [ClientState.Connecting v, ClientState.Connected ⟨v, c⟩] := by
  simp [cycleEvents, publishedStates, publishedStates_append, publishedStates_replicate]

theorem publishedStates_spawnTrace (s : List ConnCycle) :
    ∀ v, publishedStates (spawnTrace v s) = statesOf v s := by
  induction s with
  | nil => intro v; rfl
  | cons c rest ih =>
    intro v
    cases hc : c.close <;>
      simp [spawnTrace, statesOf, hc, publishedStates_append,
        publishedStates_cycleEvents, publishedStates_replicate, publishedStates, ih]

theorem connectingVersions_statesOf (s : List ConnCycle) :
    ∀ v, connectingVersions (statesOf v s) = liveVersions v s := by
  induction s with
  | nil => intro v; rfl
  | cons c rest ih =>
    intro v
    have ih2 := ih (v + 1)
    simp only [connectingVersions] at ih2 ⊢
    cases hc : c.close <;>
      simp [statesOf, liveVersions, hc, List.filterMap_cons, ih2]

theorem connectedVersions_statesOf (s : List ConnCycle) :
    ∀ v, connectedVersions (statesOf v s) = liveVersions v s := by
  induction s with
  | nil => intro v; rfl
  | cons c rest ih =>
    intro v
    have ih2 := ih (v + 1)
    simp only [connectedVersions] at ih2 ⊢
    cases hc : c.close <;>
      simp [statesOf, liveVersions, hc, List.filterMap_cons, ih2]

theorem mem_liveVersions (s : List ConnCycle) :
    ∀ v x, x ∈ liveVersions v s → v < x := by
  induction s with
  | nil => intro v x h; simp [liveVersions] at h
  | cons c rest ih =>
    intro v x h
    cases hc : c.close <;> rw [liveVersions, hc] at h
    · simp at h
      omega
    · rcases List.mem_cons.mp h with h1 | h2
      · omega
      · have := ih (v + 1) x h2
        omega

theorem chain_lt_liveVersions (s : List ConnCycle) :
    ∀ v, List.Chain' (· < ·) (liveVersions v s) := by
  induction s with
  | nil => intro v; simp [liveVersions]
  | cons c rest ih =>
    intro v
    cases hc : c.close <;> rw [liveVersions, hc]
    · simp
    · rw [List.chain'_cons']
      refine ⟨fun y hy => ?_, ih (v + 1)⟩
      exact mem_liveVersions rest (v + 1) y (List.mem_of_mem_head? hy)

/-- Claim C3: along any observed run of the background loop, the versions
of successive `Connecting` states strictly increase, the versions of
successive `Connected` states strictly increase, and the published state
sequence (hence every version) is unchanged if the number of failed
connect attempts inside a cycle is changed: inner connect retries do not
bump the version. -/
theorem spawn_version_strictly_increasing (v : Nat) (s : List ConnCycle)
    (f f2 client : Nat) (cl : ConnClose) (rest : List ConnCycle) :
    List.Chain' (· < ·) (connectingVersions (publishedStates (spawnTrace v s))) ∧
    List.Chain' (· < ·) (connectedVersions (publishedStates (spawnTrace v s))) ∧
    publishedStates (spawnTrace v (⟨f, client, cl⟩ :: rest)) =
      publishedStates (spawnTrace v (⟨f2, client, cl⟩ :: rest)) := by
  refine ⟨?_, ?_, ?_⟩
  · rw [publishedStates_spawnTrace, connectingVersions_statesOf]
    exact chain_lt_liveVersions s v
  · rw [publishedStates_spawnTrace, connectedVersions_statesOf]
    exact chain_lt_liveVersions s v
  · rw [publishedStates_spawnTrace, publishedStates_spawnTrace]
    rfl

/-- Claim C1, counterexample: a run in which the established connection's
background future resolves cleanly (`conn.await` returns `Ok`, i.e. the
connection reports closure).  The background task returns ("client
background task stopped") instead of backing off and re-entering
`Connecting` with version 2 — even though the script would have allowed a
further cycle. -/
theorem spawn_client_stops_on_clean_close :
    spawnStopped 0 [⟨0, 7, ConnClose.closedOk⟩, ⟨0, 8, ConnClose.closedErr⟩] = true ∧
    spawnTrace 0 [⟨0, 7, ConnClose.closedOk⟩, ⟨0, 8, ConnClose.closedErr⟩] =
      [MgrEvent.publish (ClientState.Connecting 1),
       MgrEvent.publish (ClientState.Connected ⟨1, 7⟩)] ∧
    MgrEvent.publish (ClientState.Connecting 2) ∉
      spawnTrace 0 [⟨0, 7, ConnClose.closedOk⟩, ⟨0, 8, ConnClose.closedErr⟩] := by
  decide

/-- Claim C1, amended: only after a connection that terminates with an
*error* does the loop wait the 500ms backoff and re-enter step 1
(`Connecting`) with a freshly incremented version; a connection whose
background future resolves cleanly stops the background task. -/
theorem spawn_client_reenters_after_error_close (v fails client : Nat)
    (c : ConnCycle) (rest : List ConnCycle) :
    spawnTrace v (⟨fails, client, ConnClose.closedErr⟩ :: c :: rest) =
      cycleEvents (v + 1) fails client ++
        MgrEvent.backoff500 :: spawnTrace (v + 1) (c :: rest) ∧
    (spawnTrace (v + 1) (c :: rest)).head? =
      some (MgrEvent.publish (ClientState.Connecting (v + 2))) ∧
    spawnStopped v (⟨fails, client, ConnClose.closedErr⟩ :: c :: rest) =
      spawnStopped (v + 1) (c :: rest) := by
  refine ⟨rfl, ?_, rfl⟩
  simp [spawnTrace, cycleEvents]

/-- Claim C10: `VersionedStatement::new` always returns `Ok`; the
constructed handle stores the given shared client untouched, the statement
state `Init(0)`, and the query text; in particular no connection state is
read or modified. -/
theorem versionedStatement_new_ok (shared_cl : VersionedClient) (query : String) :
    VersionedStatement.new shared_cl query =
      Except.ok ⟨shared_cl, StatementState.Init 0, query⟩ :=
  rfl

/-! ### Helper lemmas for `get_client` -/

theorem getClientGo_succ (obs : Nat → ClientState) (i fuel : Nat) :
    getClientGo obs i (fuel + 1) =
      match obs i with
      | ClientState.Connected cl => Except.ok cl
      | _ => getClientGo obs (i + 1) fuel := by
  rfl

theorem getClientGo_total (obs : Nat → ClientState) :
    ∀ fuel i, (∃ cl, getClientGo obs i fuel = Except.ok cl) ∨
      getClientGo obs i fuel =
        Except.error (Error.DisconnectedError "Failed to connect to database") := by
  intro fuel
  induction fuel with
  | zero => intro i; right; rfl
  | succ f ih =>
    intro i
    rw [getClientGo_succ]
    cases h : obs i with
    | Connected cl => exact Or.inl ⟨cl, rfl⟩
    | Disconnected w => exact ih (i + 1)
    | Connecting w => exact ih (i + 1)

theorem getClientGo_congr (obs obs2 : Nat → ClientState) :
    ∀ fuel i, (∀ j, i ≤ j → j < i + fuel → obs j = obs2 j) →
      getClientGo obs i fuel = getClientGo obs2 i fuel := by
  intro fuel
  induction fuel with
  | zero => intro i _; rfl
  | succ f ih =>
    intro i h
    rw [getClientGo_succ, getClientGo_succ]
    have h0 : obs i = obs2 i := h i (Nat.le_refl i) (by omega)
    rw [h0]
    cases obs2 i with
    | Connected cl => rfl
    | Disconnected w => exact ih (i + 1) (fun j hj1 hj2 => h j (by omega) (by omega))
    | Connecting w => exact ih (i + 1) (fun j hj1 hj2 => h j (by omega) (by omega))

/-- Claim C7: `get_client` returns the shared handle immediately when the
first observed state is `Connected`; on every observation stream it
terminates with either a handle or the terminal `DisconnectedError`; and
its result depends only on the first `MAX_RETRIES` observations (the
bounded retry budget). -/
theorem get_client_bounded (obs : Nat → ClientState) :
    (∀ cl, obs 0 = ClientState.Connected cl → get_client obs = Except.ok cl) ∧
    ((∃ cl, get_client obs = Except.ok cl) ∨
      get_client obs =
        Except.error (Error.DisconnectedError "Failed to connect to database")) ∧
    (∀ obs2 : Nat → ClientState, (∀ i, i < MAX_RETRIES → obs i = obs2 i) →
      get_client obs = get_client obs2) := by
  refine ⟨?_, ?_, ?_⟩
  · intro cl h
    show getClientGo obs 0 (9 + 1) = Except.ok cl
    rw [getClientGo_succ, h]
  · exact getClientGo_total obs MAX_RETRIES 0
  · intro obs2 h
    exact getClientGo_congr obs obs2 MAX_RETRIES 0 (fun j hj1 hj2 => h j (by omega))

/-- Concrete instance of the first conjunct of `get_client_bounded`: with a
stream that is already `Connected`, the handle comes back immediately. -/
theorem get_client_bounded_witness :
    get_client (fun _ => ClientState.Connected ⟨1, 2⟩) = Except.ok ⟨1, 2⟩ :=
  (get_client_bounded (fun _ => ClientState.Connected ⟨1, 2⟩)).1 ⟨1, 2⟩ rfl

/-! ### Helper lemmas for `get_statement` -/

theorem getStatementGo_eq (env : Nat → StmtEnv) (i fuel : Nat) (st : StatementState) :
    getStatementGo env i fuel st =
      match getStatementIter (env i) st with
      | StmtIter.done r s => (r, s)
      | StmtIter.next s =>
        match fuel with
        | 0 => (Except.error (Error.DisconnectedError "Failed to connect to database"), s)
        | f + 1 => getStatementGo env (i + 1) f s := by
  rw [getStatementGo]

theorem getStatementIter_done_ok (e : StmtEnv) (st : StatementState)
    (cs : ClientStatement) (s : StatementState)
    (h : getStatementIter e st = StmtIter.done (Except.ok cs) s) :
    check_version e.mgr cs.cl.version = true ∧ s = StatementState.Prepared cs := by
  cases st with
  | Init v =>
    simp only [getStatementIter] at h
    split at h
    · split at h
      · exact absurd h (by simp)
      · split at h
        · split at h
          · exact absurd h (by simp)
          · simp at h
        · simp at h
    · simp at h
  | WaitingClient v => simp [getStatementIter] at h
  | Preparing v => simp [getStatementIter] at h
  | Prepared cs2 =>
    simp only [getStatementIter] at h
    split at h
    · rename_i hv
      simp only [StmtIter.done.injEq, Except.ok.injEq] at h
      obtain ⟨h1, h2⟩ := h
      subst h1
      subst h2
      exact ⟨hv, rfl⟩
    · simp at h

theorem getStatementGo_ok_version (env : Nat → StmtEnv) :
    ∀ fuel i st cs, (getStatementGo env i fuel st).1 = Except.ok cs →
      ∃ j, i ≤ j ∧ j ≤ i + fuel ∧
        check_version ((env j).mgr) cs.cl.version = true ∧
        getStatementGo env i fuel st = (Except.ok cs, StatementState.Prepared cs) := by
  intro fuel
  induction fuel with
  | zero =>
    intro i st cs h
    rw [getStatementGo_eq] at h ⊢
    cases hit : getStatementIter (env i) st with
    | done r s =>
      rw [hit] at h
      simp at h
      subst h
      obtain ⟨hv, hs⟩ := getStatementIter_done_ok (env i) st cs s hit
      exact ⟨i, Nat.le_refl i, by omega, hv, by rw [hs]⟩
    | next s =>
      rw [hit] at h
      simp at h
  | succ f ih =>
    intro i st cs h
    rw [getStatementGo_eq] at h ⊢
    cases hit : getStatementIter (env i) st with
    | done r s =>
      rw [hit] at h
      simp at h
      subst h
      obtain ⟨hv, hs⟩ := getStatementIter_done_ok (env i) st cs s hit
      exact ⟨i, Nat.le_refl i, by omega, hv, by rw [hs]⟩
    | next s =>
      rw [hit] at h
      obtain ⟨j, hj1, hj2, hj3, hj4⟩ := ih (i + 1) s cs h
      exact ⟨j, by omega, by omega, hj3, hj4⟩

/-- Claim C2: `get_statement` hands back a prepared statement only under a
successful `check_version`: whenever the call returns `Ok cs`, there is an
iteration at which the manager state was `Connected` with exactly
`cs.cl.version` (as reported by `check_version`), and the state left
behind is `Prepared cs`; and whenever `check_version` fails on a
`Prepared` state (version mismatch or manager not `Connected`), the
iteration falls back to `Init` — so a stale prepared statement is never
handed to a dispatch. -/
theorem get_statement_only_current_version :
    (∀ env st cs, (get_statement env st).1 = Except.ok cs →
      ∃ j, j ≤ MAX_RETRIES - 1 ∧
        check_version ((env j).mgr) cs.cl.version = true ∧
        get_statement env st = (Except.ok cs, StatementState.Prepared cs)) ∧
    (∀ e cs, check_version e.mgr cs.cl.version = false →
      getStatementIter e (StatementState.Prepared cs) =
        StmtIter.next (StatementState.Init cs.cl.version)) := by
  constructor
  · intro env st cs h
    obtain ⟨j, hj1, hj2, hj3, hj4⟩ :=
      getStatementGo_ok_version env (MAX_RETRIES - 1) 0 st cs h
    exact ⟨j, by omega, hj3, hj4⟩
  · intro e cs h
    simp [getStatementIter, h]

/-- Concrete instance of `get_statement_only_current_version`: a handle
prepared and returned under a `Connected` manager at version 1. -/
theorem get_statement_only_current_version_witness :
    ∃ j, j ≤ MAX_RETRIES - 1 ∧
      check_version
        ((fun _ : Nat => StmtEnv.mk (Except.ok ⟨1, 5⟩) (Except.ok 3)
            (ClientState.Connected ⟨1, 5⟩)) j).mgr
        (ClientStatement.mk ⟨1, 5⟩ 3).cl.version = true ∧
      get_statement
          (fun _ : Nat => StmtEnv.mk (Except.ok ⟨1, 5⟩) (Except.ok 3)
            (ClientState.Connected ⟨1, 5⟩))
          (StatementState.Init 0) =
        (Except.ok ⟨⟨1, 5⟩, 3⟩, StatementState.Prepared ⟨⟨1, 5⟩, 3⟩) :=
  get_statement_only_current_version.1
    (fun _ : Nat => StmtEnv.mk (Except.ok ⟨1, 5⟩) (Except.ok 3)
      (ClientState.Connected ⟨1, 5⟩))
    (StatementState.Init 0) ⟨⟨1, 5⟩, 3⟩ rfl

/-- Claim C6: classification of prepare failures inside the `Init` arm of
`get_statement`.  A failure with a server-side error code, or a
client-side failure whose message is not "connection closed", is returned
to the caller immediately — on the first attempt, for every retry budget.
Only a client-side "connection closed" failure re-enters the loop from
`Init` (at the obtained client's version). -/
theorem get_statement_prepare_error_classified :
    (∀ (env : Nat → StmtEnv) i fuel v cl err c,
      (env i).client = Except.ok cl →
      (env i).prep = Except.error err →
      err.code = some c →
      getStatementGo env i fuel (StatementState.Init v) =
        (Except.error (Error.PgError err), StatementState.Preparing cl.version)) ∧
    (∀ (env : Nat → StmtEnv) i fuel v cl err,
      (env i).client = Except.ok cl →
      (env i).prep = Except.error err →
      err.code = none →
      err.message ≠ "connection closed" →
      getStatementGo env i fuel (StatementState.Init v) =
        (Except.error (Error.PgError err), StatementState.Preparing cl.version)) ∧
    (∀ (env : Nat → StmtEnv) i f v cl err,
      (env i).client = Except.ok cl →
      (env i).prep = Except.error err →
      err.code = none →
      err.message = "connection closed" →
      getStatementGo env i (f + 1) (StatementState.Init v) =
        getStatementGo env (i + 1) f (StatementState.Init cl.version)) := by
  refine ⟨?_, ?_, ?_⟩
  · intro env i fuel v cl err c hcl hprep hcode
    rw [getStatementGo_eq]
    simp [getStatementIter, hcl, hprep, hcode]
  · intro env i fuel v cl err hcl hprep hcode hmsg
    rw [getStatementGo_eq]
    simp [getStatementIter, hcl, hprep, hcode, hmsg]
  · intro env i f v cl err hcl hprep hcode hmsg
    rw [getStatementGo_eq]
    simp [getStatementIter, hcl, hprep, hcode, hmsg]

/-- Concrete instance of `get_statement_prepare_error_classified`: a
malformed query fails prepare with a syntax-class server error; the error
propagates on the very first attempt. -/
theorem get_statement_prepare_error_classified_witness :
    get_statement
        (fun _ : Nat => StmtEnv.mk (Except.ok ⟨1, 5⟩)
          (Except.error ⟨some 42601, "syntax error at or near"⟩)
          (ClientState.Connected ⟨1, 5⟩))
        (StatementState.Init 0) =
      (Except.error (Error.PgError ⟨some 42601, "syntax error at or near"⟩),
       StatementState.Preparing 1) :=
  get_statement_prepare_error_classified.1
    (fun _ : Nat => StmtEnv.mk (Except.ok ⟨1, 5⟩)
      (Except.error ⟨some 42601, "syntax error at or near"⟩)
      (ClientState.Connected ⟨1, 5⟩))
    0 (MAX_RETRIES - 1) 0 ⟨1, 5⟩ ⟨some 42601, "syntax error at or near"⟩ 42601
    rfl rfl rfl

theorem getStatementGo_prepared_current (env : Nat → StmtEnv) (i fuel : Nat)
    (cs : ClientStatement)
    (h : check_version ((env i).mgr) cs.cl.version = true) :
    getStatementGo env i fuel (StatementState.Prepared cs) =
      (Except.ok cs, StatementState.Prepared cs) := by
  rw [getStatementGo_eq]
  simp [getStatementIter, h]

/-- Claim C8: while `check_version` keeps succeeding, a `Prepared` handle
is idempotent under `get_statement` — every call returns the same prepared
handle and leaves the state unchanged (no prepare is consulted), for any
iteration oracle and any retry budget.  After a version change, the first
call passes through `Init` exactly once (consuming a single prepare) and
ends `Prepared` at the new version, from where calls are again
idempotent. -/
theorem prepared_state_idempotent :
    (∀ (env : Nat → StmtEnv) i fuel cs,
      check_version ((env i).mgr) cs.cl.version = true →
      getStatementGo env i fuel (StatementState.Prepared cs) =
        (Except.ok cs, StatementState.Prepared cs)) ∧
    (∀ (env : Nat → StmtEnv) i f cs cl stmt,
      check_version ((env i).mgr) cs.cl.version = false →
      (env (i + 1)).client = Except.ok cl →
      (env (i + 1)).prep = Except.ok stmt →
      check_version ((env (i + 2)).mgr) cl.version = true →
      getStatementGo env i (f + 2) (StatementState.Prepared cs) =
        (Except.ok ⟨cl, stmt⟩, StatementState.Prepared ⟨cl, stmt⟩)) := by
  constructor
  · exact getStatementGo_prepared_current
  · intro env i f cs cl stmt hstale hcl hprep hnew
    rw [getStatementGo_eq]
    simp only [getStatementIter, hstale, Bool.false_eq_true, if_false]
    rw [getStatementGo_eq]
    simp only [getStatementIter, hcl, hprep]
    exact getStatementGo_prepared_current env (i + 2) f ⟨cl, stmt⟩ hnew

/-- Concrete instance of `prepared_state_idempotent`: a handle prepared at
version 1 is used after the manager has rotated to version 2; the call
reprepares exactly once and returns the new handle. -/
theorem prepared_state_idempotent_witness :
    getStatementGo
        (fun j : Nat =>
          match j with
          | 0 => StmtEnv.mk (Except.ok ⟨2, 6⟩) (Except.ok 4) (ClientState.Connected ⟨2, 6⟩)
          | _ + 1 => StmtEnv.mk (Except.ok ⟨2, 6⟩) (Except.ok 4) (ClientState.Connected ⟨2, 6⟩))
        0 2 (StatementState.Prepared ⟨⟨1, 5⟩, 3⟩) =
      (Except.ok ⟨⟨2, 6⟩, 4⟩, StatementState.Prepared ⟨⟨2, 6⟩, 4⟩) :=
  prepared_state_idempotent.2
    (fun j : Nat =>
      match j with
      | 0 => StmtEnv.mk (Except.ok ⟨2, 6⟩) (Except.ok 4) (ClientState.Connected ⟨2, 6⟩)
      | _ + 1 => StmtEnv.mk (Except.ok ⟨2, 6⟩) (Except.ok 4) (ClientState.Connected ⟨2, 6⟩))
    0 0 ⟨⟨1, 5⟩, 3⟩ ⟨2, 6⟩ 4 rfl rfl rfl rfl

theorem getStatementGo_preparing_stuck (env : Nat → StmtEnv) :
    ∀ fuel i v, getStatementGo env i fuel (StatementState.Preparing v) =
      (Except.error (Error.DisconnectedError "Failed to connect to database"),
       StatementState.Preparing v) := by
  intro fuel
  induction fuel with
  | zero => intro i v; rw [getStatementGo_eq]; simp [getStatementIter]
  | succ f ih =>
    intro i v
    rw [getStatementGo_eq]
    simp only [getStatementIter]
    exact ih (i + 1) v

/-- Claim C9 fails on the code: when prepare fails with a non-retryable
error (here a server-side syntax-class error), `get_statement` returns the
error while leaving the statement state as `Preparing(1)` — not `Init` or
`Prepared` — with no concurrent caller in flight.  Worse, the handle is
then wedged: from `Preparing` every later `get_statement` call, under
every environment, burns its whole retry budget and returns the terminal
`DisconnectedError` (the `get_client` error path resets the state to
`Init` before returning, but the two prepare-error return paths do not). -/
theorem get_statement_error_leaves_preparing :
    get_statement
        (fun _ : Nat => StmtEnv.mk (Except.ok ⟨1, 5⟩)
          (Except.error ⟨some 42601, "syntax error"⟩)
          (ClientState.Connected ⟨1, 5⟩))
        (StatementState.Init 0) =
      (Except.error (Error.PgError ⟨some 42601, "syntax error"⟩),
       StatementState.Preparing 1) ∧
    ∀ env2 : Nat → StmtEnv,
      get_statement env2 (StatementState.Preparing 1) =
        (Except.error (Error.DisconnectedError "Failed to connect to database"),
         StatementState.Preparing 1) := by
  constructor
  · rfl
  · intro env2
    exact getStatementGo_preparing_stuck env2 (MAX_RETRIES - 1) 0 1

/-! ### Helper lemmas for the dispatch wrapper -/

theorem clientMethodGo_eq {α : Type} (env : Nat → AttemptEnv α) (k fuel : Nat)
    (st : StatementState) :
    clientMethodGo env k fuel st =
      match get_statement (env k).senv st with
      | (Except.error e, s) => (Except.error e, s)
      | (Except.ok refStmt, s) =>
        match (env k).call refStmt with
        | Except.ok res => (Except.ok res, s)
        | Except.error err =>
          match err.code with
          | none =>
            if err.message = "connection closed" then
              match fuel with
              | 0 =>
                (Except.error (Error.DisconnectedError "Failed to connect to database"), s)
              | f + 1 => clientMethodGo env (k + 1) f s
            else
              (Except.error (Error.PgError err), s)
          | some _ =>
            (Except.error (Error.PgError err), s) := by
  rw [clientMethodGo]

/-- Claim C4: classification of dispatch failures in the retry wrapper
shared by `query`/`query_one`/`query_opt`/`execute`.  A failure carrying a
server-side error code, or a client-side failure whose message is not
"connection closed", propagates immediately — the result is independent of
the retry budget and of all later attempts.  Only a client-side
"connection closed" failure takes the retry path: the loop re-enters at
the next attempt (re-resolving via `get_statement` from the state left
behind) with one unit of budget consumed. -/
theorem dispatch_error_classified {α : Type} :
    (∀ (env : Nat → AttemptEnv α) k fuel st cs s err c,
      get_statement (env k).senv st = (Except.ok cs, s) →
      (env k).call cs = Except.error err →
      err.code = some c →
      clientMethodGo env k fuel st = (Except.error (Error.PgError err), s)) ∧
    (∀ (env : Nat → AttemptEnv α) k fuel st cs s err,
      get_statement (env k).senv st = (Except.ok cs, s) →
      (env k).call cs = Except.error err →
      err.code = none →
      err.message ≠ "connection closed" →
      clientMethodGo env k fuel st = (Except.error (Error.PgError err), s)) ∧
    (∀ (env : Nat → AttemptEnv α) k f st cs s err,
      get_statement (env k).senv st = (Except.ok cs, s) →
      (env k).call cs = Except.error err →
      err.code = none →
      err.message = "connection closed" →
      clientMethodGo env k (f + 1) st = clientMethodGo env (k + 1) f s) := by
  refine ⟨?_, ?_, ?_⟩
  · intro env k fuel st cs s err c hgs hcall hcode
    rw [clientMethodGo_eq, hgs]
    simp [hcall, hcode]
  · intro env k fuel st cs s err hgs hcall hcode hmsg
    rw [clientMethodGo_eq, hgs]
    simp [hcall, hcode, hmsg]
  · intro env k f st cs s err hgs hcall hcode hmsg
    rw [clientMethodGo_eq, hgs]
    simp [hcall, hcode, hmsg]

/-- Concrete instance of `dispatch_error_classified`: a unique-constraint
violation (server-side code) on `execute` propagates with no retry. -/
theorem dispatch_error_classified_witness :
    VersionedStatement.execute
        (fun _ : Nat => AttemptEnv.mk
          (fun _ => StmtEnv.mk (Except.ok ⟨1, 5⟩) (Except.ok 3)
            (ClientState.Connected ⟨1, 5⟩))
          (fun _ => Except.error ⟨some 23505, "duplicate key value"⟩))
        (StatementState.Init 0) =
      (Except.error (Error.PgError ⟨some 23505, "duplicate key value"⟩),
       StatementState.Prepared ⟨⟨1, 5⟩, 3⟩) :=
  dispatch_error_classified.1
    (fun _ : Nat => AttemptEnv.mk
      (fun _ => StmtEnv.mk (Except.ok ⟨1, 5⟩) (Except.ok 3)
        (ClientState.Connected ⟨1, 5⟩))
      (fun _ => Except.error ⟨some 23505, "duplicate key value"⟩))
    0 (MAX_RETRIES - 1) (StatementState.Init 0) ⟨⟨1, 5⟩, 3⟩
    (StatementState.Prepared ⟨⟨1, 5⟩, 3⟩) ⟨some 23505, "duplicate key value"⟩ 23505
    rfl rfl rfl

theorem clientMethodGo_cc_run (env : Nat → AttemptEnv Nat)
    (css : Nat → ClientStatement) (ss : Nat → StatementState) :
    ∀ fuel k,
      (∀ j, k ≤ j → j ≤ k + fuel →
        get_statement (env j).senv (ss j) = (Except.ok (css j), ss (j + 1))) →
      (∀ j, k ≤ j → j ≤ k + fuel →
        (env j).call (css j) = Except.error ⟨none, "connection closed"⟩) →
      clientMethodGo env k fuel (ss k) =
        (Except.error (Error.DisconnectedError "Failed to connect to database"),
         ss (k + fuel + 1)) := by
  intro fuel
  induction fuel with
  | zero =>
    intro k hok hcc
    rw [clientMethodGo_eq, hok k (Nat.le_refl k) (by omega)]
    simp [hcc k (Nat.le_refl k) (by omega)]
  | succ f ih =>
    intro k hok hcc
    rw [clientMethodGo_eq, hok k (Nat.le_refl k) (by omega)]
    simp only [hcc k (Nat.le_refl k) (by omega)]
    have step := ih (k + 1)
      (fun j hj1 hj2 => hok j (by omega) (by omega))
      (fun j hj1 hj2 => hcc j (by omega) (by omega))
    simp only [step]
    have harith : k + 1 + f + 1 = k + (f + 1) + 1 := by omega
    rw [harith]
    simp

/-- Claim C5: the retry ceiling of the dispatch wrapper is exactly
`MAX_RETRIES = 10` consecutive "connection closed" failures: if the first
10 attempts of `execute` (attempts 0 through 9, each resolving a statement
and then failing client-side with "connection closed") all fail, the call
returns the terminal `DisconnectedError` — with no hypothesis at all on
attempts 10 and later, which are never made. -/
theorem execute_retry_ceiling (env : Nat → AttemptEnv Nat) (st : StatementState)
    (css : Nat → ClientStatement) (ss : Nat → StatementState)
    (h0 : ss 0 = st)
    (hok : ∀ j, j ≤ MAX_RETRIES - 1 →
      get_statement (env j).senv (ss j) = (Except.ok (css j), ss (j + 1)))
    (hcc : ∀ j, j ≤ MAX_RETRIES - 1 →
      (env j).call (css j) = Except.error ⟨none, "connection closed"⟩) :
    VersionedStatement.execute env st =
      (Except.error (Error.DisconnectedError "Failed to connect to database"),
       ss MAX_RETRIES) := by
  subst h0
  have := clientMethodGo_cc_run env css ss (MAX_RETRIES - 1) 0
    (fun j hj1 hj2 => hok j (by omega))
    (fun j hj1 hj2 => hcc j (by omega))
  have h9 : 0 + (MAX_RETRIES - 1) + 1 = MAX_RETRIES := rfl
  rw [h9] at this
  exact this

/-- Concrete instance of `execute_retry_ceiling`: an environment scripted
to fail with "connection closed" 12 times in a row (and succeed from
attempt 12 on) still produces the terminal `DisconnectedError` — the 10th
failure aborts the call; attempts 10 and 11 never happen. -/
theorem execute_retry_ceiling_witness :
    VersionedStatement.execute
        (fun k : Nat => AttemptEnv.mk
          (fun _ => StmtEnv.mk (Except.ok ⟨1, 5⟩) (Except.ok 3)
            (ClientState.Connected ⟨1, 5⟩))
          (fun _ => if k < 12 then Except.error ⟨none, "connection closed"⟩
            else Except.ok 7))
        (StatementState.Init 0) =
      (Except.error (Error.DisconnectedError "Failed to connect to database"),
       StatementState.Prepared ⟨⟨1, 5⟩, 3⟩) :=
  execute_retry_ceiling
    (fun k : Nat => AttemptEnv.mk
      (fun _ => StmtEnv.mk (Except.ok ⟨1, 5⟩) (Except.ok 3)
        (ClientState.Connected ⟨1, 5⟩))
      (fun _ => if k < 12 then Except.error ⟨none, "connection closed"⟩
        else Except.ok 7))
    (StatementState.Init 0)
    (fun _ => ⟨⟨1, 5⟩, 3⟩)
    (fun j =>
      match j with
      | 0 => StatementState.Init 0
      | _ + 1 => StatementState.Prepared ⟨⟨1, 5⟩, 3⟩)
    rfl
    (fun j hj => by
      match j with
      | 0 => rfl
      | n + 1 => rfl)
    (fun j hj => by
      have hlt : j < 12 := by
        have : MAX_RETRIES - 1 = 9 := rfl
        omega
      simp only
      rw [if_pos hlt])
